import Mathlib

/-!
Verification of the srctools VTF pixel-format codec
(`src/srctools/_cy_vtf_readwrite.pyx`) against its natural-language
specification.

Buffers are modelled as functions from byte index to byte value (`Nat`),
mirroring the raw C byte spans the Cython code manipulates.  Every per-pixel
loop in the source writes each destination byte at most once per statement,
with a later statement overwriting an earlier one at the same index, so the
buffer after the loop is given pointwise: for each destination index we
record the value of the last write landing there, and indices never written
keep the previous contents of the destination span.  Channel values are
`Nat`s; all arithmetic in the source is performed after C integer promotion
and every stored value is masked or bounded so it fits a byte, so plain
`Nat` operations agree with the C semantics at every store.
-/

namespace Vtf

/-- A raw byte span: byte index to byte value. -/
abbrev Buf := Nat → Nat

/-- A freshly allocated CPython buffer: zero-initialised. -/
def freshBuf : Buf := fun _ => 0

/-- Stretch `bits` worth of data to fill the byte, duplicating the MSBs
into the remaining space (`data | (data >> bits)`). -/
def upsample (bits data : Nat) : Nat := data ||| (data >>> bits)

/-- The `RGB` struct of the source: one byte per colour channel. -/
structure RGB where
  r : Nat
  g : Nat
  b : Nat
deriving DecidableEq, Repr

/-- Decompress 565-packed data (`a` low byte, `b` high byte) into RGB. -/
def decomp565 (a b : Nat) : RGB :=
  { r := upsample 5 ((a &&& 0b00011111) <<< 3)
    g := upsample 6 (((b &&& 0b00000111) <<< 5) ||| ((a &&& 0b11100000) >>> 3))
    b := upsample 5 (b &&& 0b11111000) }

/-- Compress an RGB triplet into 565-packed data (low byte, high byte). -/
def compress565 (r g b : Nat) : Nat × Nat :=
  (((g <<< 3) &&& 0b11100000) ||| (b >>> 3),
   (r &&& 0b11111000) ||| (g >>> 5))

/-!
Per-format codecs.  Each mirrors one `load_*`/`save_*` function of the
source.  A codec receives the destination span (whose untouched bytes
survive), the source span, and the dimensions.  Canonical channel offsets
are R=0, G=1, B=2, A=3 as in the source's `DEF` constants.
-/

/-- Parse RGBA-ordered 8888 pixels (`memcpy` of `4*W*H` bytes). -/
def load_copy (pixels data : Buf) (width height : Nat) : Buf :=
  fun i => if i < 4 * width * height then data i else pixels i

/-- Generate RGBA-ordered 8888 pixels (`memcpy` of `4*W*H` bytes). -/
def save_copy (pixels data : Buf) (width height : Nat) : Buf :=
  fun i => if i < 4 * width * height then pixels i else data i

/-- Load BGRA format images. -/
def load_bgra8888 (pixels data : Buf) (width height : Nat) : Buf :=
  fun i =>
    if i < 4 * width * height then
      let off := i / 4
      if i % 4 = 2 then data (4 * off + 0)
      else if i % 4 = 1 then data (4 * off + 1)
      else if i % 4 = 0 then data (4 * off + 2)
      else data (4 * off + 3)
    else pixels i

/-- Generate BGRA format images. -/
def save_bgra8888 (pixels data : Buf) (width height : Nat) : Buf :=
  fun i =>
    if i < 4 * width * height then
      let off := i / 4
      if i % 4 = 0 then pixels (4 * off + 2)
      else if i % 4 = 1 then pixels (4 * off + 1)
      else if i % 4 = 2 then pixels (4 * off + 0)
      else pixels (4 * off + 3)
    else data i

/-- Load "ARGB" data, which is actually stored in GBAR order. -/
def load_argb8888 (pixels data : Buf) (width height : Nat) : Buf :=
  fun i =>
    if i < 4 * width * height then
      let off := i / 4
      if i % 4 = 0 then data (4 * off + 3)
      else if i % 4 = 1 then data (4 * off + 0)
      else if i % 4 = 2 then data (4 * off + 1)
      else data (4 * off + 2)
    else pixels i

/-- Generate "ARGB" data, which is actually stored in GBAR order. -/
def save_argb8888 (pixels data : Buf) (width height : Nat) : Buf :=
  fun i =>
    if i < 4 * width * height then
      let off := i / 4
      if i % 4 = 0 then pixels (4 * off + 1)
      else if i % 4 = 1 then pixels (4 * off + 2)
      else if i % 4 = 2 then pixels (4 * off + 3)
      else pixels (4 * off + 0)
    else data i

/-- Load ABGR-ordered data. -/
def load_abgr8888 (pixels data : Buf) (width height : Nat) : Buf :=
  fun i =>
    if i < 4 * width * height then
      let off := i / 4
      if i % 4 = 0 then data (4 * off + 3)
      else if i % 4 = 1 then data (4 * off + 2)
      else if i % 4 = 2 then data (4 * off + 1)
      else data (4 * off + 0)
    else pixels i

/-- Generate ABGR-ordered data. -/
def save_abgr8888 (pixels data : Buf) (width height : Nat) : Buf :=
  fun i =>
    if i < 4 * width * height then
      let off := i / 4
      if i % 4 = 0 then pixels (4 * off + 3)
      else if i % 4 = 1 then pixels (4 * off + 2)
      else if i % 4 = 2 then pixels (4 * off + 1)
      else pixels (4 * off + 0)
    else data i

/-- Load RGB888 data, filling alpha with 255. -/
def load_rgb888 (pixels data : Buf) (width height : Nat) : Buf :=
  fun i =>
    if i < 4 * width * height then
      let off := i / 4
      if i % 4 = 0 then data (3 * off + 0)
      else if i % 4 = 1 then data (3 * off + 1)
      else if i % 4 = 2 then data (3 * off + 2)
      else 255
    else pixels i

/-- Generate RGB-format data, discarding alpha. -/
def save_rgb888 (pixels data : Buf) (width height : Nat) : Buf :=
  fun j =>
    if j < 3 * width * height then
      let off := j / 3
      if j % 3 = 0 then pixels (4 * off + 0)
      else if j % 3 = 1 then pixels (4 * off + 1)
      else pixels (4 * off + 2)
    else data j

/-- Load BGR888 data, filling alpha with 255. -/
def load_bgr888 (pixels data : Buf) (width height : Nat) : Buf :=
  fun i =>
    if i < 4 * width * height then
      let off := i / 4
      if i % 4 = 0 then data (3 * off + 2)
      else if i % 4 = 1 then data (3 * off + 1)
      else if i % 4 = 2 then data (3 * off + 0)
      else 255
    else pixels i

/-- Generate BGR-format data, discarding alpha. -/
def save_bgr888 (pixels data : Buf) (width height : Nat) : Buf :=
  fun j =>
    if j < 3 * width * height then
      let off := j / 3
      if j % 3 = 0 then pixels (4 * off + 2)
      else if j % 3 = 1 then pixels (4 * off + 1)
      else pixels (4 * off + 0)
    else data j

/-- Load BGRX8888 data: BGR plus one skipped byte, alpha filled with 255. -/
def load_bgrx8888 (pixels data : Buf) (width height : Nat) : Buf :=
  fun i =>
    if i < 4 * width * height then
      let off := i / 4
      if i % 4 = 0 then data (4 * off + 2)
      else if i % 4 = 1 then data (4 * off + 1)
      else if i % 4 = 2 then data (4 * off + 0)
      else 255
    else pixels i

/-- Generate BGR-format data with an extra ignored byte written as 0. -/
def save_bgrx8888 (pixels data : Buf) (width height : Nat) : Buf :=
  fun j =>
    if j < 4 * width * height then
      let off := j / 4
      if j % 4 = 0 then pixels (4 * off + 2)
      else if j % 4 = 1 then pixels (4 * off + 1)
      else if j % 4 = 2 then pixels (4 * off + 0)
      else 0
    else data j

/-- Load RGB565 data: RGB packed into 2 bytes by dropping LSBs. -/
def load_rgb565 (pixels data : Buf) (width height : Nat) : Buf :=
  fun i =>
    if i < 4 * width * height then
      let off := i / 4
      let col := decomp565 (data (2 * off)) (data (2 * off + 1))
      if i % 4 = 0 then col.r
      else if i % 4 = 1 then col.g
      else if i % 4 = 2 then col.b
      else 255
    else pixels i

/-- Generate 565-format data, in RGB order. -/
def save_rgb565 (pixels data : Buf) (width height : Nat) : Buf :=
  fun j =>
    if j < 2 * width * height then
      let off := j / 2
      let packed := compress565 (pixels (4 * off + 0)) (pixels (4 * off + 1))
        (pixels (4 * off + 2))
      if j % 2 = 0 then packed.1 else packed.2
    else data j

/-- Load BGR565 data: BGR packed into 2 bytes by dropping LSBs. -/
def load_bgr565 (pixels data : Buf) (width height : Nat) : Buf :=
  fun i =>
    if i < 4 * width * height then
      let off := i / 4
      let col := decomp565 (data (2 * off)) (data (2 * off + 1))
      if i % 4 = 0 then col.b
      else if i % 4 = 1 then col.g
      else if i % 4 = 2 then col.r
      else 255
    else pixels i

/-- Generate 565-format data, in BGR order. -/
def save_bgr565 (pixels data : Buf) (width height : Nat) : Buf :=
  fun j =>
    if j < 2 * width * height then
      let off := j / 2
      let packed := compress565 (pixels (4 * off + 2)) (pixels (4 * off + 1))
        (pixels (4 * off + 0))
      if j % 2 = 0 then packed.1 else packed.2
    else data j

/-- Load BGRA4444 data: only the upper 4 bits; the bottom half of each
channel is a copy of the top. -/
def load_bgra4444 (pixels data : Buf) (width height : Nat) : Buf :=
  fun i =>
    if i < 4 * width * height then
      let off := i / 4
      let a := data (2 * off)
      let b := data (2 * off + 1)
      if i % 4 = 1 then (a &&& 0b11110000) ||| ((a &&& 0b11110000) >>> 4)
      else if i % 4 = 2 then (a &&& 0b00001111) ||| ((a &&& 0b00001111) <<< 4)
      else if i % 4 = 0 then (b &&& 0b00001111) ||| ((b &&& 0b00001111) <<< 4)
      else (b &&& 0b11110000) ||| ((b &&& 0b11110000) >>> 4)
    else pixels i

/-- Generate BGRA4444 data, using only 4 bits per channel. -/
def save_bgra4444 (pixels data : Buf) (width height : Nat) : Buf :=
  fun j =>
    if j < 2 * width * height then
      let off := j / 2
      if j % 2 = 0 then
        (pixels (4 * off + 1) &&& 0b11110000) ||| (pixels (4 * off + 2) >>> 4)
      else
        (pixels (4 * off + 3) &&& 0b11110000) ||| (pixels (4 * off + 0) >>> 4)
    else data j

/-- Load BGRA5551 data: 5 bits per colour plus 1 bit of alpha. -/
def load_bgra5551 (pixels data : Buf) (width height : Nat) : Buf :=
  fun i =>
    if i < 4 * width * height then
      let off := i / 4
      let a := data (2 * off)
      let b := data (2 * off + 1)
      if i % 4 = 0 then upsample 5 ((b &&& 0b01111100) <<< 1)
      else if i % 4 = 1 then
        upsample 5 (((a &&& 0b11100000) >>> 2) ||| ((b &&& 0b00000011) <<< 6))
      else if i % 4 = 2 then upsample 5 ((a &&& 0b00011111) <<< 3)
      else if b &&& 0b10000000 ≠ 0 then 255 else 0
    else pixels i

/-- Generate BGRA5551 data, 5 bits per colour and 1 bit of alpha
(layout comment in the source: BBBBBGGG GGRRRRRA). -/
def save_bgra5551 (pixels data : Buf) (width height : Nat) : Buf :=
  fun j =>
    if j < 2 * width * height then
      let off := j / 2
      let r := pixels (4 * off + 0)
      let g := pixels (4 * off + 1)
      let b := pixels (4 * off + 2)
      let a := pixels (4 * off + 3)
      if j % 2 = 0 then (b &&& 0b11111000) ||| (g >>> 5)
      else ((g <<< 6) &&& 0b11000000) ||| ((r >>> 2) &&& 0b00111110) ||| (a >>> 7)
    else data j

/-- Load BGRX5551 data: 5 bits per colour, alpha bit ignored, A filled 255. -/
def load_bgrx5551 (pixels data : Buf) (width height : Nat) : Buf :=
  fun i =>
    if i < 4 * width * height then
      let off := i / 4
      let a := data (2 * off)
      let b := data (2 * off + 1)
      if i % 4 = 0 then upsample 5 ((b &&& 0b01111100) <<< 1)
      else if i % 4 = 1 then
        upsample 5 (((a &&& 0b11100000) >>> 2) ||| ((b &&& 0b00000011) <<< 6))
      else if i % 4 = 2 then upsample 5 ((a &&& 0b00011111) <<< 3)
      else 255
    else pixels i

/-- Generate BGRX5551 data, 5 bits per colour and one spare bit. -/
def save_bgrx5551 (pixels data : Buf) (width height : Nat) : Buf :=
  fun j =>
    if j < 2 * width * height then
      let off := j / 2
      let r := pixels (4 * off + 0)
      let g := pixels (4 * off + 1)
      let b := pixels (4 * off + 2)
      if j % 2 = 0 then (b &&& 0b11111000) ||| (g >>> 5)
      else ((g <<< 6) &&& 0b11000000) ||| ((r >>> 2) &&& 0b00111110)
    else data j

/-- Load I8 data: R=G=B=intensity, alpha filled with 255. -/
def load_i8 (pixels data : Buf) (width height : Nat) : Buf :=
  fun i =>
    if i < 4 * width * height then
      let off := i / 4
      if i % 4 = 3 then 255 else data off
    else pixels i

/-- Save in greyscale: truncated average of R, G, B. -/
def save_i8 (pixels data : Buf) (width height : Nat) : Buf :=
  fun j =>
    if j < width * height then
      (pixels (4 * j + 0) + pixels (4 * j + 1) + pixels (4 * j + 2)) / 3
    else data j

/-- Load IA88 data: R=G=B=intensity plus alpha. -/
def load_ia88 (pixels data : Buf) (width height : Nat) : Buf :=
  fun i =>
    if i < 4 * width * height then
      let off := i / 4
      if i % 4 = 3 then data (2 * off + 1) else data (2 * off)
    else pixels i

/-- Save in greyscale with alpha. -/
def save_ia88 (pixels data : Buf) (width height : Nat) : Buf :=
  fun j =>
    if j < 2 * width * height then
      let off := j / 2
      if j % 2 = 0 then
        (pixels (4 * off + 0) + pixels (4 * off + 1) + pixels (4 * off + 2)) / 3
      else pixels (4 * off + 3)
    else data j

/-- Load single alpha bytes.  The source first does
`memset(&pixels[0], 0, width * height)` — note this zeroes only the first
`width * height` bytes of the `4 * width * height`-byte canonical span —
and then its loop stores every alpha byte. -/
def load_a8 (pixels data : Buf) (width height : Nat) : Buf :=
  fun i =>
    if i % 4 = 3 ∧ i < 4 * width * height then data (i / 4)
    else if i < width * height then 0
    else pixels i

/-- Save just the alpha channel. -/
def save_a8 (pixels data : Buf) (width height : Nat) : Buf :=
  fun j =>
    if j < width * height then pixels (4 * j + 3)
    else data j

/-- Load UV-only data, mapped to RG with B=0 and A=255. -/
def load_uv88 (pixels data : Buf) (width height : Nat) : Buf :=
  fun i =>
    if i < 4 * width * height then
      let off := i / 4
      if i % 4 = 0 then data (2 * off)
      else if i % 4 = 1 then data (2 * off + 1)
      else if i % 4 = 2 then 0
      else 255
    else pixels i

/-- Generate UV-format data from the R and G channels. -/
def save_uv88 (pixels data : Buf) (width height : Nat) : Buf :=
  fun j =>
    if j < 2 * width * height then
      let off := j / 2
      if j % 2 = 0 then pixels (4 * off + 0) else pixels (4 * off + 1)
    else data j

/-- Load RGB888 data in bluescreen mode: a pure-blue source pixel becomes
transparent black, everything else is opaque. -/
def load_rgb888_bluescreen (pixels data : Buf) (width height : Nat) : Buf :=
  fun i =>
    if i < 4 * width * height then
      let off := i / 4
      let r := data (3 * off)
      let g := data (3 * off + 1)
      let b := data (3 * off + 2)
      if r = 0 ∧ g = 0 ∧ b = 255 then 0
      else
        if i % 4 = 0 then r
        else if i % 4 = 1 then g
        else if i % 4 = 2 then b
        else 255
    else pixels i

/-- Generate RGB888 data in bluescreen mode: transparent pixels (A < 128)
become pure blue, others keep RGB with alpha discarded. -/
def save_rgb888_bluescreen (pixels data : Buf) (width height : Nat) : Buf :=
  fun j =>
    if j < 3 * width * height then
      let off := j / 3
      if pixels (4 * off + 3) < 128 then
        if j % 3 = 2 then 255 else 0
      else
        if j % 3 = 0 then pixels (4 * off + 0)
        else if j % 3 = 1 then pixels (4 * off + 1)
        else pixels (4 * off + 2)
    else data j

/-- Load BGR888 data in bluescreen mode. -/
def load_bgr888_bluescreen (pixels data : Buf) (width height : Nat) : Buf :=
  fun i =>
    if i < 4 * width * height then
      let off := i / 4
      let r := data (3 * off + 2)
      let g := data (3 * off + 1)
      let b := data (3 * off)
      if r = 0 ∧ g = 0 ∧ b = 255 then 0
      else
        if i % 4 = 0 then r
        else if i % 4 = 1 then g
        else if i % 4 = 2 then b
        else 255
    else pixels i

/-- Generate BGR888 data in bluescreen mode: transparent pixels (A < 128)
are written as bytes 255,0,0 (pure blue in BGR order). -/
def save_bgr888_bluescreen (pixels data : Buf) (width height : Nat) : Buf :=
  fun j =>
    if j < 3 * width * height then
      let off := j / 3
      if pixels (4 * off + 3) < 128 then
        if j % 3 = 0 then 255 else 0
      else
        if j % 3 = 0 then pixels (4 * off + 2)
        else if j % 3 = 1 then pixels (4 * off + 1)
        else pixels (4 * off + 0)
    else data j

/-!
Block-compressed formats.  The heavy lifting is done by the external
`squish` C++ library (`CompressImage` / `DecompressImage`), which is not
part of this repository; the codecs below are parameterised over it.  Each
field stands for the external call with the flag word the source passes at
that call site already fixed.
-/

/-- The external squish block codec, one field per call site of the source. -/
structure SquishLib where
  decompressDxt1Opaque : Buf → Buf → Nat → Nat → Buf
  compressDxt1Opaque : Buf → Buf → Nat → Nat → Buf
  decompressDxt1 : Buf → Buf → Nat → Nat → Buf
  compressDxt1 : Buf → Buf → Nat → Nat → Buf
  decompressDxt3 : Buf → Buf → Nat → Nat → Buf
  compressDxt3 : Buf → Buf → Nat → Nat → Buf
  decompressDxt5 : Buf → Buf → Nat → Nat → Buf
  compressDxt5 : Buf → Buf → Nat → Nat → Buf
  decompressBc5 : Buf → Buf → Nat → Nat → Buf
  compressBc5 : Buf → Buf → Nat → Nat → Buf

/-- Fill written by the sub-4-pixel branch of every block-format loader.
The source's loop body is four stores per pixel: offsets +0, +1, +2 are set
to 0 and then offset +2 is set again to 0xFF (the alpha byte at offset +3
is never stored), so the last-write-wins value at channel 2 is 255 and
channel 3 keeps the old contents. -/
def dxtSmallFill (pixels : Buf) (width height : Nat) : Buf :=
  fun i =>
    if i < 4 * width * height then
      if i % 4 = 0 then 0
      else if i % 4 = 1 then 0
      else if i % 4 = 2 then 255
      else pixels i
    else pixels i

/-- Load compressed DXT1 data. -/
def load_dxt1 (squish : SquishLib) (pixels data : Buf) (width height : Nat) : Buf :=
  if width < 4 ∨ height < 4 then dxtSmallFill pixels width height
  else squish.decompressDxt1Opaque pixels data width height

/-- Save compressed DXT1 data; skipped below 4x4. -/
def save_dxt1 (squish : SquishLib) (pixels data : Buf) (width height : Nat) : Buf :=
  if 4 ≤ width ∧ 4 ≤ height then squish.compressDxt1Opaque pixels data width height
  else data

/-- Load compressed DXT1 data with 1-bit alpha. -/
def load_dxt1_alpha (squish : SquishLib) (pixels data : Buf) (width height : Nat) : Buf :=
  if width < 4 ∨ height < 4 then dxtSmallFill pixels width height
  else squish.decompressDxt1 pixels data width height

/-- Save compressed DXT1 data with 1-bit alpha; skipped below 4x4. -/
def save_dxt1_alpha (squish : SquishLib) (pixels data : Buf) (width height : Nat) : Buf :=
  if 4 ≤ width ∧ 4 ≤ height then squish.compressDxt1 pixels data width height
  else data

/-- Load compressed DXT3 data. -/
def load_dxt3 (squish : SquishLib) (pixels data : Buf) (width height : Nat) : Buf :=
  if width < 4 ∨ height < 4 then dxtSmallFill pixels width height
  else squish.decompressDxt3 pixels data width height

/-- Save compressed DXT3 data; skipped below 4x4. -/
def save_dxt3 (squish : SquishLib) (pixels data : Buf) (width height : Nat) : Buf :=
  if 4 ≤ width ∧ 4 ≤ height then squish.compressDxt3 pixels data width height
  else data

/-- Load compressed DXT5 data. -/
def load_dxt5 (squish : SquishLib) (pixels data : Buf) (width height : Nat) : Buf :=
  if width < 4 ∨ height < 4 then dxtSmallFill pixels width height
  else squish.decompressDxt5 pixels data width height

/-- Save compressed DXT5 data; skipped below 4x4. -/
def save_dxt5 (squish : SquishLib) (pixels data : Buf) (width height : Nat) : Buf :=
  if 4 ≤ width ∧ 4 ≤ height then squish.compressDxt5 pixels data width height
  else data

/-- Load ATI2N (BC5) data. -/
def load_ati2n (squish : SquishLib) (pixels data : Buf) (width height : Nat) : Buf :=
  if width < 4 ∨ height < 4 then dxtSmallFill pixels width height
  else squish.decompressBc5 pixels data width height

/-- Save ATI2N (BC5) data; skipped below 4x4. -/
def save_ati2n (squish : SquishLib) (pixels data : Buf) (width height : Nat) : Buf :=
  if 4 ≤ width ∧ 4 ≤ height then squish.compressBc5 pixels data width height
  else data

/-!
The format registry: a 30-entry table matching format names to the load
and save functions.  `none` stands for a NULL function pointer.
-/

/-- One registry entry: name plus optional load and save functions. -/
structure Format where
  name : String
  load : Option (Buf → Buf → Nat → Nat → Buf)
  save : Option (Buf → Buf → Nat → Nat → Buf)

/-- The 30-entry `FORMATS` array of the source.  Every access in the source
is guarded to indices in `[0, 30)`; the catch-all branch is unreachable
there. -/
def FORMATS (squish : SquishLib) : Nat → Format
  | 0 => ⟨"RGBA8888", some load_copy, some save_copy⟩
  | 1 => ⟨"ABGR8888", some load_abgr8888, some save_abgr8888⟩
  | 2 => ⟨"RGB888", some load_rgb888, some save_rgb888⟩
  | 3 => ⟨"BGR888", some load_bgr888, some save_bgr888⟩
  | 4 => ⟨"RGB565", some load_rgb565, some save_rgb565⟩
  | 5 => ⟨"I8", some load_i8, some save_i8⟩
  | 6 => ⟨"IA88", some load_ia88, some save_ia88⟩
  | 7 => ⟨"P8", none, none⟩
  | 8 => ⟨"A8", some load_a8, some save_a8⟩
  | 9 => ⟨"RGB888_BLUESCREEN", some load_rgb888_bluescreen, some save_rgb888_bluescreen⟩
  | 10 => ⟨"BGR888_BLUESCREEN", some load_bgr888_bluescreen, some save_bgr888_bluescreen⟩
  | 11 => ⟨"ARGB8888", some load_argb8888, some save_argb8888⟩
  | 12 => ⟨"BGRA8888", some load_bgra8888, some save_bgra8888⟩
  | 13 => ⟨"DXT1", some (load_dxt1 squish), some (save_dxt1 squish)⟩
  | 14 => ⟨"DXT3", some (load_dxt3 squish), some (save_dxt3 squish)⟩
  | 15 => ⟨"DXT5", some (load_dxt5 squish), some (save_dxt5 squish)⟩
  | 16 => ⟨"BGRX8888", some load_bgrx8888, some save_bgrx8888⟩
  | 17 => ⟨"BGR565", some load_bgr565, some save_bgr565⟩
  | 18 => ⟨"BGRX5551", some load_bgrx5551, some save_bgrx5551⟩
  | 19 => ⟨"BGRA4444", some load_bgra4444, some save_bgra4444⟩
  | 20 => ⟨"DXT1_ONEBITALPHA", some (load_dxt1_alpha squish), some (save_dxt1_alpha squish)⟩
  | 21 => ⟨"BGRA5551", some load_bgra5551, some save_bgra5551⟩
  | 22 => ⟨"UV88", some load_uv88, some save_uv88⟩
  | 23 => ⟨"UVWQ8888", some load_copy, some save_copy⟩
  | 24 => ⟨"RGBA16161616F", none, none⟩
  | 25 => ⟨"RGBA16161616", none, none⟩
  | 26 => ⟨"UVLX8888", some load_copy, some save_copy⟩
  | 27 => ⟨"NONE", none, none⟩
  | 28 => ⟨"ATI1N", none, none⟩
  | 29 => ⟨"ATI2N", some (load_ati2n squish), some (save_ati2n squish)⟩
  | _ => ⟨"", none, none⟩

/-- Public entry point: load pixels from data in the given format.  `ind`
and `fmtName` are the caller-supplied `fmt.ind` and `fmt.name`; a raised
`NotImplementedError` is modelled as `Except.error` carrying its message. -/
def load (squish : SquishLib) (ind : Int) (fmtName : String)
    (pixels data : Buf) (width height : Nat) : Except String Buf :=
  if 0 ≤ ind ∧ ind < 30 then
    match (FORMATS squish ind.toNat).load with
    | some f => .ok (f pixels data width height)
    | none => .error ("Loading " ++ fmtName ++ " not implemented!")
  else .error ("Loading " ++ fmtName ++ " not implemented!")

/-- Public entry point: save pixels into data in the given format. -/
def save (squish : SquishLib) (ind : Int) (fmtName : String)
    (pixels data : Buf) (width height : Nat) : Except String Buf :=
  if 0 ≤ ind ∧ ind < 30 then
    match (FORMATS squish ind.toNat).save with
    | some f => .ok (f pixels data width height)
    | none => .error ("Saving " ++ fmtName ++ " not implemented!")
  else .error ("Saving " ++ fmtName ++ " not implemented!")

/-- Verify that the caller's enum matches the array of functions: for each
supplied `(index, name)` pair the source asserts `0 <= index < 30` and that
the name equals the registry name at that index.  Returns `true` when every
assertion passes. -/
def init (squish : SquishLib) (formats : List (Int × String)) : Bool :=
  formats.all fun fmt =>
    decide (0 ≤ fmt.1 ∧ fmt.1 < 30) && ((FORMATS squish fmt.1.toNat).name == fmt.2)

/-- Scale down an image to a smaller size; each destination dimension is
either the source dimension or exactly half of it.  `filt` is the filter
enum value; an unknown value raises `ValueError`, modelled as `.error`. -/
def scale_down (filt : Nat) (src_width src_height width height : Nat)
    (src dest : Buf) : Except String Buf :=
  let horiz_off := if width ≠ src_width then 4 else 0
  let per_column := if width ≠ src_width then 2 else 1
  let vert_off := if height ≠ src_height then 4 * per_column * width else 0
  let per_row := if height ≠ src_height then 2 * per_column * width
    else per_column * width
  if filt = 4 then
    .ok (fun idx =>
      if idx < 4 * width * height then
        let off := idx / 4
        let channel := idx % 4
        let y := off / width
        let x := off % width
        let off2 := 4 * (per_row * y + per_column * x)
        (src (off2 + channel) + src (off2 + channel + horiz_off) +
         src (off2 + channel + vert_off) +
         src (off2 + channel + vert_off + horiz_off)) / 4
      else dest idx)
  else if filt < 4 then
    let pos_off :=
      if filt = 0 then 0
      else if filt = 1 then horiz_off
      else if filt = 2 then vert_off
      else vert_off + horiz_off
    .ok (fun idx =>
      if idx < 4 * width * height then
        let off := idx / 4
        let channel := idx % 4
        let y := off / width
        let x := off % width
        let off2 := 4 * (per_row * y + per_column * x)
        src (off2 + pos_off + channel)
      else dest idx)
  else .error "Unknown filter"

/-- Byte sequence of a string, one `Nat` per ASCII character. -/
def strBytes (s : String) : List Nat := s.data.map Char.toNat

/-- Header bytes written by `sprintf(buffer, b'P6 %u %u 255\n', W, H)`. -/
def ppmHeader (width height : Nat) : List Nat :=
  strBytes ("P6 " ++ toString width ++ " " ++ toString height ++ " 255\n")

/-- Convert a frame into a PPM-format bytestring, for the `bg is None`
path of the source (the `bg` path uses C float compositing and is outside
the claims considered here).  The result buffer holds `header_size +
3*W*H` bytes: `sprintf` writes the header bytes (its trailing NUL lands at
index `header_size`, inside CPython's hidden slack byte when `W*H = 0` and
otherwise overwritten by the pixel loop), and the loop stores, for each
`off`, the R, G, B bytes of pixel `off` at `header_size + 3*off + 0,1,2`. -/
def ppm_convert (pixels : Buf) (width height : Nat) : List Nat :=
  let hdr := ppmHeader width height
  let header_size := hdr.length
  (List.range (header_size + 3 * width * height)).map fun i =>
    if i < header_size then hdr.getD i 0
    else
      let j := i - header_size
      let off := j / 3
      if j % 3 = 0 then pixels (4 * off + 0)
      else if j % 3 = 1 then pixels (4 * off + 1)
      else pixels (4 * off + 2)

/-!
Concrete buffers and a concrete external codec used in closed statements.
-/

/-- A 1x1 canonical pixel with distinct channel bytes. -/
def pix0 : Buf := fun i => [10, 20, 30, 40].getD i 0

/-- A 1x1 canonical pixel with A = 255. -/
def pixA : Buf := fun i => [10, 20, 30, 255].getD i 0

/-- A 1x1 canonical pixel with B = 0 and A = 255 (UV88 subspace). -/
def pixUV : Buf := fun i => [10, 20, 0, 255].getD i 0

/-- A 1x1 canonical pixel with R = G = B = 0 (A8 subspace). -/
def pixA8 : Buf := fun i => [0, 0, 0, 40].getD i 0

/-- A 1x1 canonical greyscale pixel with R = G = B (IA88 subspace). -/
def pixI : Buf := fun i => [13, 13, 13, 40].getD i 0

/-- A 1x1 canonical pixel whose only nonzero byte is G = 2 (A = 0). -/
def pixG2 : Buf := fun i => [0, 2, 0, 0].getD i 0

/-- A 1x1 canonical pixel with A = 200. -/
def pixO : Buf := fun i => [10, 20, 30, 200].getD i 0

/-- A pure red canonical pixel. -/
def pixRed : Buf := fun i => [255, 0, 0, 255].getD i 0

/-- A canonical pixel with B = 0x18. -/
def pixB18 : Buf := fun i => [0, 0, 0x18, 255].getD i 0

/-- A canonical pixel with B = 0x20. -/
def pixB20 : Buf := fun i => [0, 0, 0x20, 255].getD i 0

/-- A destination pixel buffer whose bytes are all 204, to observe which
bytes a loader actually writes. -/
def pixCC : Buf := fun _ => 204

/-- An encoded buffer whose bytes are all 5. -/
def data5 : Buf := fun _ => 5

/-- An identity-valued encoded buffer (byte `i` holds `i`), to observe
whether a saver writes anything. -/
def dataId : Buf := fun i => i

/-- A concrete stand-in for the external squish library (each call returns
the destination unchanged); the claims below never depend on its
behaviour. -/
def trivialSquish : SquishLib :=
  ⟨fun p _ _ _ => p, fun _ d _ _ => d, fun p _ _ _ => p, fun _ d _ _ => d,
   fun p _ _ _ => p, fun _ d _ _ => d, fun p _ _ _ => p, fun _ d _ _ => d,
   fun p _ _ _ => p, fun _ d _ _ => d⟩

/-- Encoded RGB888 bytes of one pure-blue pixel. -/
def dataBlue : Buf := fun i => [0, 0, 255].getD i 0

/-- Encoded BGR888 bytes of one pure-blue pixel. -/
def dataBlueB : Buf := fun i => [255, 0, 0].getD i 0

/-- A 2x2 source image used by the C7 witness (spec scenario S5). -/
def src22 : Buf := fun i =>
  [10, 20, 30, 40, 30, 40, 50, 60, 50, 60, 70, 80, 70, 80, 90, 100].getD i 0

/-- The RGB-triple body of a PPM stream: for each pixel in row-major
order, its R, G and B bytes with alpha dropped. -/
def rgbBody (pixels : Buf) : Nat → List Nat
  | 0 => []
  | n + 1 => rgbBody pixels n ++
      [pixels (4 * n), pixels (4 * n + 1), pixels (4 * n + 2)]

/-- The five registry tags with NULL load and save functions. -/
def unsupportedTags : List Nat := [7, 24, 25, 27, 28]


/-!
Index arithmetic helpers for the per-pixel loops.
-/

lemma mod4_0 (off : Nat) : (4 * off) % 4 = 0 := by omega
lemma mod4_1 (off : Nat) : (4 * off + 1) % 4 = 1 := by omega
lemma mod4_2 (off : Nat) : (4 * off + 2) % 4 = 2 := by omega
lemma mod4_3 (off : Nat) : (4 * off + 3) % 4 = 3 := by omega
lemma div4_0 (off : Nat) : (4 * off) / 4 = off := by omega
lemma div4_1 (off : Nat) : (4 * off + 1) / 4 = off := by omega
lemma div4_2 (off : Nat) : (4 * off + 2) / 4 = off := by omega
lemma div4_3 (off : Nat) : (4 * off + 3) / 4 = off := by omega
lemma mod3_0 (off : Nat) : (3 * off) % 3 = 0 := by omega
lemma mod3_1 (off : Nat) : (3 * off + 1) % 3 = 1 := by omega
lemma mod3_2 (off : Nat) : (3 * off + 2) % 3 = 2 := by omega
lemma div3_0 (off : Nat) : (3 * off) / 3 = off := by omega
lemma div3_1 (off : Nat) : (3 * off + 1) / 3 = off := by omega
lemma div3_2 (off : Nat) : (3 * off + 2) / 3 = off := by omega
lemma mod2_0 (off : Nat) : (2 * off) % 2 = 0 := by omega
lemma mod2_1 (off : Nat) : (2 * off + 1) % 2 = 1 := by omega
lemma div2_0 (off : Nat) : (2 * off) / 2 = off := by omega
lemma div2_1 (off : Nat) : (2 * off + 1) / 2 = off := by omega

/-- Shared simp set for evaluating the loop-index arithmetic. -/
lemma idx_split (i : Nat) : ∃ off c, c < 4 ∧ i = 4 * off + c :=
  ⟨i / 4, i % 4, by omega, by omega⟩

/-!
Round-trip lemmas feeding claim C1: for each non-lossy format, saving a
canonical buffer in that format and loading the result back into a fresh
buffer restores every byte, given the format's representable subspace.
-/

lemma roundtrip_bgra8888 (W H : Nat) (p : Buf) (i : Nat) (hi : i < 4 * W * H) :
    load_bgra8888 freshBuf (save_bgra8888 p freshBuf W H) W H i = p i := by
  have ha : 4 * W * H = 4 * (W * H) := by ring
  obtain ⟨off, c, hc, rfl⟩ := idx_split i
  have hoff : off < W * H := by omega
  have h0 : 4 * off < 4 * W * H := by omega
  have h1 : 4 * off + 1 < 4 * W * H := by omega
  have h2 : 4 * off + 2 < 4 * W * H := by omega
  have h3 : 4 * off + 3 < 4 * W * H := by omega
  interval_cases c <;>
    simp only [load_bgra8888, save_bgra8888, freshBuf, Nat.add_zero,
      mod4_0, mod4_1, mod4_2, mod4_3, div4_0, div4_1, div4_2, div4_3,
      h0, h1, h2, h3, if_true, if_false, reduceIte] <;>
    norm_num

lemma roundtrip_copy (W H : Nat) (p : Buf) (i : Nat) (hi : i < 4 * W * H) :
    load_copy freshBuf (save_copy p freshBuf W H) W H i = p i := by
  simp [load_copy, save_copy, hi]

lemma roundtrip_abgr8888 (W H : Nat) (p : Buf) (i : Nat) (hi : i < 4 * W * H) :
    load_abgr8888 freshBuf (save_abgr8888 p freshBuf W H) W H i = p i := by
  have ha : 4 * W * H = 4 * (W * H) := by ring
  obtain ⟨off, c, hc, rfl⟩ := idx_split i
  have hoff : off < W * H := by omega
  have h0 : 4 * off < 4 * W * H := by omega
  have h1 : 4 * off + 1 < 4 * W * H := by omega
  have h2 : 4 * off + 2 < 4 * W * H := by omega
  have h3 : 4 * off + 3 < 4 * W * H := by omega
  interval_cases c <;>
    simp only [load_abgr8888, save_abgr8888, freshBuf, Nat.add_zero,
      mod4_0, mod4_1, mod4_2, mod4_3, div4_0, div4_1, div4_2, div4_3,
      h0, h1, h2, h3, if_true, if_false, reduceIte] <;>
    norm_num

lemma roundtrip_argb8888 (W H : Nat) (p : Buf) (i : Nat) (hi : i < 4 * W * H) :
    load_argb8888 freshBuf (save_argb8888 p freshBuf W H) W H i = p i := by
  have ha : 4 * W * H = 4 * (W * H) := by ring
  obtain ⟨off, c, hc, rfl⟩ := idx_split i
  have hoff : off < W * H := by omega
  have h0 : 4 * off < 4 * W * H := by omega
  have h1 : 4 * off + 1 < 4 * W * H := by omega
  have h2 : 4 * off + 2 < 4 * W * H := by omega
  have h3 : 4 * off + 3 < 4 * W * H := by omega
  interval_cases c <;>
    simp only [load_argb8888, save_argb8888, freshBuf, Nat.add_zero,
      mod4_0, mod4_1, mod4_2, mod4_3, div4_0, div4_1, div4_2, div4_3,
      h0, h1, h2, h3, if_true, if_false, reduceIte] <;>
    norm_num

lemma roundtrip_bgrx8888 (W H : Nat) (p : Buf) (i : Nat) (hi : i < 4 * W * H)
    (hA : ∀ o < W * H, p (4 * o + 3) = 255) :
    load_bgrx8888 freshBuf (save_bgrx8888 p freshBuf W H) W H i = p i := by
  have ha : 4 * W * H = 4 * (W * H) := by ring
  obtain ⟨off, c, hc, rfl⟩ := idx_split i
  have hoff : off < W * H := by omega
  have h0 : 4 * off < 4 * W * H := by omega
  have h1 : 4 * off + 1 < 4 * W * H := by omega
  have h2 : 4 * off + 2 < 4 * W * H := by omega
  have h3 : 4 * off + 3 < 4 * W * H := by omega
  interval_cases c <;>
    simp only [load_bgrx8888, save_bgrx8888, freshBuf, Nat.add_zero,
      mod4_0, mod4_1, mod4_2, mod4_3, div4_0, div4_1, div4_2, div4_3,
      h0, h1, h2, h3, if_true, if_false, reduceIte] <;>
    norm_num [hA off hoff]

lemma roundtrip_rgb888 (W H : Nat) (p : Buf) (i : Nat) (hi : i < 4 * W * H)
    (hA : ∀ o < W * H, p (4 * o + 3) = 255) :
    load_rgb888 freshBuf (save_rgb888 p freshBuf W H) W H i = p i := by
  have ha : 4 * W * H = 4 * (W * H) := by ring
  have hb : 3 * W * H = 3 * (W * H) := by ring
  obtain ⟨off, c, hc, rfl⟩ := idx_split i
  have hoff : off < W * H := by omega
  have h0 : 4 * off < 4 * W * H := by omega
  have h1 : 4 * off + 1 < 4 * W * H := by omega
  have h2 : 4 * off + 2 < 4 * W * H := by omega
  have h3 : 4 * off + 3 < 4 * W * H := by omega
  have e0 : 3 * off < 3 * W * H := by omega
  have e1 : 3 * off + 1 < 3 * W * H := by omega
  have e2 : 3 * off + 2 < 3 * W * H := by omega
  interval_cases c <;>
    simp only [load_rgb888, save_rgb888, freshBuf, Nat.add_zero,
      mod4_0, mod4_1, mod4_2, mod4_3, div4_0, div4_1, div4_2, div4_3,
      mod3_0, mod3_1, mod3_2, div3_0, div3_1, div3_2,
      h0, h1, h2, h3, e0, e1, e2, if_true, if_false, reduceIte] <;>
    norm_num [hA off hoff]

lemma roundtrip_bgr888 (W H : Nat) (p : Buf) (i : Nat) (hi : i < 4 * W * H)
    (hA : ∀ o < W * H, p (4 * o + 3) = 255) :
    load_bgr888 freshBuf (save_bgr888 p freshBuf W H) W H i = p i := by
  have ha : 4 * W * H = 4 * (W * H) := by ring
  have hb : 3 * W * H = 3 * (W * H) := by ring
  obtain ⟨off, c, hc, rfl⟩ := idx_split i
  have hoff : off < W * H := by omega
  have h0 : 4 * off < 4 * W * H := by omega
  have h1 : 4 * off + 1 < 4 * W * H := by omega
  have h2 : 4 * off + 2 < 4 * W * H := by omega
  have h3 : 4 * off + 3 < 4 * W * H := by omega
  have e0 : 3 * off < 3 * W * H := by omega
  have e1 : 3 * off + 1 < 3 * W * H := by omega
  have e2 : 3 * off + 2 < 3 * W * H := by omega
  interval_cases c <;>
    simp only [load_bgr888, save_bgr888, freshBuf, Nat.add_zero,
      mod4_0, mod4_1, mod4_2, mod4_3, div4_0, div4_1, div4_2, div4_3,
      mod3_0, mod3_1, mod3_2, div3_0, div3_1, div3_2,
      h0, h1, h2, h3, e0, e1, e2, if_true, if_false, reduceIte] <;>
    norm_num [hA off hoff]

lemma roundtrip_uv88 (W H : Nat) (p : Buf) (i : Nat) (hi : i < 4 * W * H)
    (hB : ∀ o < W * H, p (4 * o + 2) = 0)
    (hA : ∀ o < W * H, p (4 * o + 3) = 255) :
    load_uv88 freshBuf (save_uv88 p freshBuf W H) W H i = p i := by
  have ha : 4 * W * H = 4 * (W * H) := by ring
  have hb : 2 * W * H = 2 * (W * H) := by ring
  obtain ⟨off, c, hc, rfl⟩ := idx_split i
  have hoff : off < W * H := by omega
  have h0 : 4 * off < 4 * W * H := by omega
  have h1 : 4 * off + 1 < 4 * W * H := by omega
  have h2 : 4 * off + 2 < 4 * W * H := by omega
  have h3 : 4 * off + 3 < 4 * W * H := by omega
  have e0 : 2 * off < 2 * W * H := by omega
  have e1 : 2 * off + 1 < 2 * W * H := by omega
  interval_cases c <;>
    simp only [load_uv88, save_uv88, freshBuf, Nat.add_zero,
      mod4_0, mod4_1, mod4_2, mod4_3, div4_0, div4_1, div4_2, div4_3,
      mod2_0, mod2_1, div2_0, div2_1,
      h0, h1, h2, h3, e0, e1, if_true, if_false, reduceIte] <;>
    norm_num [hB off hoff, hA off hoff]

lemma roundtrip_a8 (W H : Nat) (p : Buf) (i : Nat) (hi : i < 4 * W * H)
    (hRGB : ∀ o < W * H, p (4 * o) = 0 ∧ p (4 * o + 1) = 0 ∧ p (4 * o + 2) = 0) :
    load_a8 freshBuf (save_a8 p freshBuf W H) W H i = p i := by
  have ha : 4 * W * H = 4 * (W * H) := by ring
  obtain ⟨off, c, hc, rfl⟩ := idx_split i
  have hoff : off < W * H := by omega
  have h3 : 4 * off + 3 < 4 * W * H := by omega
  interval_cases c <;>
    simp only [load_a8, save_a8, freshBuf, Nat.add_zero,
      mod4_0, mod4_1, mod4_2, mod4_3, div4_0, div4_1, div4_2, div4_3,
      h3, hoff, if_true, if_false, and_true, and_false, true_and, false_and,
      reduceIte] <;>
    norm_num [ite_self, hoff, (hRGB off hoff).1, (hRGB off hoff).2.1,
      (hRGB off hoff).2.2]

lemma roundtrip_ia88 (W H : Nat) (p : Buf) (i : Nat) (hi : i < 4 * W * H)
    (hGrey : ∀ o < W * H, p (4 * o + 1) = p (4 * o) ∧ p (4 * o + 2) = p (4 * o)) :
    load_ia88 freshBuf (save_ia88 p freshBuf W H) W H i = p i := by
  have ha : 4 * W * H = 4 * (W * H) := by ring
  have hb : 2 * W * H = 2 * (W * H) := by ring
  obtain ⟨off, c, hc, rfl⟩ := idx_split i
  have hoff : off < W * H := by omega
  have h0 : 4 * off < 4 * W * H := by omega
  have h1 : 4 * off + 1 < 4 * W * H := by omega
  have h2 : 4 * off + 2 < 4 * W * H := by omega
  have h3 : 4 * off + 3 < 4 * W * H := by omega
  have e0 : 2 * off < 2 * W * H := by omega
  have e1 : 2 * off + 1 < 2 * W * H := by omega
  obtain ⟨g1, g2⟩ := hGrey off hoff
  interval_cases c <;>
    simp only [load_ia88, save_ia88, freshBuf, Nat.add_zero,
      mod4_0, mod4_1, mod4_2, mod4_3, div4_0, div4_1, div4_2, div4_3,
      mod2_0, mod2_1, div2_0, div2_1,
      h0, h1, h2, h3, e0, e1, if_true, if_false, reduceIte] <;>
    norm_num [g1, g2] <;>
    omega

/-!
Claim theorems.
-/

/-- C1: for each of the formats RGBA8888, BGRA8888, ABGR8888, ARGB8888,
BGRX8888, RGB888, BGR888, UV88, A8, IA88, UVWQ8888 and UVLX8888 (the
registry maps RGBA8888, UVWQ8888 and UVLX8888 to the same copy codec), and
for every width `W ≥ 1`, height `H ≥ 1` and canonical RGBA8888 buffer of
length `4*W*H` lying in that format's representable subspace (A = 255 for
BGRX8888/RGB888/BGR888, B = 0 and A = 255 for UV88, R = G = B = 0 for A8,
R = G = B for IA88, unrestricted otherwise), running `save` for that
format and then `load` on the saved bytes into a fresh destination buffer
reproduces the original canonical buffer byte for byte. -/
theorem c1_nonlossy_roundtrip :
    (∀ W H p, 1 ≤ W → 1 ≤ H → (∀ i < 4 * W * H, p i < 256) →
      ∀ i < 4 * W * H, load_copy freshBuf (save_copy p freshBuf W H) W H i = p i) ∧
    (∀ W H p, 1 ≤ W → 1 ≤ H → (∀ i < 4 * W * H, p i < 256) →
      ∀ i < 4 * W * H, load_bgra8888 freshBuf (save_bgra8888 p freshBuf W H) W H i = p i) ∧
    (∀ W H p, 1 ≤ W → 1 ≤ H → (∀ i < 4 * W * H, p i < 256) →
      ∀ i < 4 * W * H, load_abgr8888 freshBuf (save_abgr8888 p freshBuf W H) W H i = p i) ∧
    (∀ W H p, 1 ≤ W → 1 ≤ H → (∀ i < 4 * W * H, p i < 256) →
      ∀ i < 4 * W * H, load_argb8888 freshBuf (save_argb8888 p freshBuf W H) W H i = p i) ∧
    (∀ W H p, 1 ≤ W → 1 ≤ H → (∀ i < 4 * W * H, p i < 256) →
      (∀ o < W * H, p (4 * o + 3) = 255) →
      ∀ i < 4 * W * H, load_bgrx8888 freshBuf (save_bgrx8888 p freshBuf W H) W H i = p i) ∧
    (∀ W H p, 1 ≤ W → 1 ≤ H → (∀ i < 4 * W * H, p i < 256) →
      (∀ o < W * H, p (4 * o + 3) = 255) →
      ∀ i < 4 * W * H, load_rgb888 freshBuf (save_rgb888 p freshBuf W H) W H i = p i) ∧
    (∀ W H p, 1 ≤ W → 1 ≤ H → (∀ i < 4 * W * H, p i < 256) →
      (∀ o < W * H, p (4 * o + 3) = 255) →
      ∀ i < 4 * W * H, load_bgr888 freshBuf (save_bgr888 p freshBuf W H) W H i = p i) ∧
    (∀ W H p, 1 ≤ W → 1 ≤ H → (∀ i < 4 * W * H, p i < 256) →
      (∀ o < W * H, p (4 * o + 2) = 0) → (∀ o < W * H, p (4 * o + 3) = 255) →
      ∀ i < 4 * W * H, load_uv88 freshBuf (save_uv88 p freshBuf W H) W H i = p i) ∧
    (∀ W H p, 1 ≤ W → 1 ≤ H → (∀ i < 4 * W * H, p i < 256) →
      (∀ o < W * H, p (4 * o) = 0 ∧ p (4 * o + 1) = 0 ∧ p (4 * o + 2) = 0) →
      ∀ i < 4 * W * H, load_a8 freshBuf (save_a8 p freshBuf W H) W H i = p i) ∧
    (∀ W H p, 1 ≤ W → 1 ≤ H → (∀ i < 4 * W * H, p i < 256) →
      (∀ o < W * H, p (4 * o + 1) = p (4 * o) ∧ p (4 * o + 2) = p (4 * o)) →
      ∀ i < 4 * W * H, load_ia88 freshBuf (save_ia88 p freshBuf W H) W H i = p i) ∧
    (∀ W H p, 1 ≤ W → 1 ≤ H → (∀ i < 4 * W * H, p i < 256) →
      ∀ i < 4 * W * H, load_copy freshBuf (save_copy p freshBuf W H) W H i = p i) ∧
    (∀ W H p, 1 ≤ W → 1 ≤ H → (∀ i < 4 * W * H, p i < 256) →
      ∀ i < 4 * W * H, load_copy freshBuf (save_copy p freshBuf W H) W H i = p i) :=
  ⟨fun W H p _ _ _ i hi => roundtrip_copy W H p i hi,
   fun W H p _ _ _ i hi => roundtrip_bgra8888 W H p i hi,
   fun W H p _ _ _ i hi => roundtrip_abgr8888 W H p i hi,
   fun W H p _ _ _ i hi => roundtrip_argb8888 W H p i hi,
   fun W H p _ _ _ hA i hi => roundtrip_bgrx8888 W H p i hi hA,
   fun W H p _ _ _ hA i hi => roundtrip_rgb888 W H p i hi hA,
   fun W H p _ _ _ hA i hi => roundtrip_bgr888 W H p i hi hA,
   fun W H p _ _ _ hB hA i hi => roundtrip_uv88 W H p i hi hB hA,
   fun W H p _ _ _ hRGB i hi => roundtrip_a8 W H p i hi hRGB,
   fun W H p _ _ _ hGrey i hi => roundtrip_ia88 W H p i hi hGrey,
   fun W H p _ _ _ i hi => roundtrip_copy W H p i hi,
   fun W H p _ _ _ i hi => roundtrip_copy W H p i hi⟩

/-- Witness for C1 at concrete 1x1 buffers in each format's subspace. -/
theorem c1_nonlossy_roundtrip_witness :
    (∀ i < 4 * 1 * 1, load_copy freshBuf (save_copy pix0 freshBuf 1 1) 1 1 i = pix0 i) ∧
    (∀ i < 4 * 1 * 1, load_bgra8888 freshBuf (save_bgra8888 pix0 freshBuf 1 1) 1 1 i = pix0 i) ∧
    (∀ i < 4 * 1 * 1, load_abgr8888 freshBuf (save_abgr8888 pix0 freshBuf 1 1) 1 1 i = pix0 i) ∧
    (∀ i < 4 * 1 * 1, load_argb8888 freshBuf (save_argb8888 pix0 freshBuf 1 1) 1 1 i = pix0 i) ∧
    (∀ i < 4 * 1 * 1, load_bgrx8888 freshBuf (save_bgrx8888 pixA freshBuf 1 1) 1 1 i = pixA i) ∧
    (∀ i < 4 * 1 * 1, load_rgb888 freshBuf (save_rgb888 pixA freshBuf 1 1) 1 1 i = pixA i) ∧
    (∀ i < 4 * 1 * 1, load_bgr888 freshBuf (save_bgr888 pixA freshBuf 1 1) 1 1 i = pixA i) ∧
    (∀ i < 4 * 1 * 1, load_uv88 freshBuf (save_uv88 pixUV freshBuf 1 1) 1 1 i = pixUV i) ∧
    (∀ i < 4 * 1 * 1, load_a8 freshBuf (save_a8 pixA8 freshBuf 1 1) 1 1 i = pixA8 i) ∧
    (∀ i < 4 * 1 * 1, load_ia88 freshBuf (save_ia88 pixI freshBuf 1 1) 1 1 i = pixI i) :=
  ⟨c1_nonlossy_roundtrip.1 1 1 pix0 (by decide) (by decide) (by decide),
   c1_nonlossy_roundtrip.2.1 1 1 pix0 (by decide) (by decide) (by decide),
   c1_nonlossy_roundtrip.2.2.1 1 1 pix0 (by decide) (by decide) (by decide),
   c1_nonlossy_roundtrip.2.2.2.1 1 1 pix0 (by decide) (by decide) (by decide),
   c1_nonlossy_roundtrip.2.2.2.2.1 1 1 pixA (by decide) (by decide) (by decide) (by decide),
   c1_nonlossy_roundtrip.2.2.2.2.2.1 1 1 pixA (by decide) (by decide) (by decide) (by decide),
   c1_nonlossy_roundtrip.2.2.2.2.2.2.1 1 1 pixA (by decide) (by decide) (by decide) (by decide),
   c1_nonlossy_roundtrip.2.2.2.2.2.2.2.1 1 1 pixUV (by decide) (by decide) (by decide) (by decide) (by decide),
   c1_nonlossy_roundtrip.2.2.2.2.2.2.2.2.1 1 1 pixA8 (by decide) (by decide) (by decide) (by decide),
   c1_nonlossy_roundtrip.2.2.2.2.2.2.2.2.2.1 1 1 pixI (by decide) (by decide) (by decide) (by decide)⟩

/-- C2 fails on the code: `save_bgra5551` stores the alpha bit in bit 0 of
the second byte while `load_bgra5551` reads alpha from bit 7, so the
reconstructed alpha tracks bit 1 of the input green channel rather than the
input alpha.  At the pixel (0,2,0,0) the input alpha is 0 (< 128) but the
reconstruction has alpha 255; at (10,20,30,200) the input alpha is ≥ 128
but the reconstruction has alpha 0. -/
theorem c2_bgra5551_alpha_eval :
    pixG2 3 = 0 ∧
    load_bgra5551 freshBuf (save_bgra5551 pixG2 freshBuf 1 1) 1 1 3 = 255 ∧
    pixO 3 = 200 ∧
    load_bgra5551 freshBuf (save_bgra5551 pixO freshBuf 1 1) 1 1 3 = 0 := by
  decide

/-- C3 fails on the code.  Idempotence: `decomp565` reads the red channel
from the bits `compress565` wrote the blue channel to, so one RGB565
save-then-load swaps R and B; applied to pure red it yields pure blue and
applied twice it yields pure red again, so twice differs from once (the
same swap shows for BGR565).  Monotonicity: for BGRX5551 the save and load
layouts disagree, and raising the input blue channel from 0x18 to 0x20
drops the reconstructed blue channel from 198 to 0 (likewise for
BGRA5551). -/
theorem c3_packed_roundtrip_eval :
    load_rgb565 freshBuf (save_rgb565 pixRed freshBuf 1 1) 1 1 0 = 0 ∧
    load_rgb565 freshBuf (save_rgb565 pixRed freshBuf 1 1) 1 1 2 = 255 ∧
    load_rgb565 freshBuf (save_rgb565
      (load_rgb565 freshBuf (save_rgb565 pixRed freshBuf 1 1) 1 1)
      freshBuf 1 1) 1 1 0 = 255 ∧
    load_bgr565 freshBuf (save_bgr565 pixRed freshBuf 1 1) 1 1 0 = 0 ∧
    load_bgr565 freshBuf (save_bgr565 pixRed freshBuf 1 1) 1 1 2 = 255 ∧
    load_bgrx5551 freshBuf (save_bgrx5551 pixB18 freshBuf 1 1) 1 1 2 = 198 ∧
    load_bgrx5551 freshBuf (save_bgrx5551 pixB20 freshBuf 1 1) 1 1 2 = 0 ∧
    load_bgra5551 freshBuf (save_bgra5551 pixB18 freshBuf 1 1) 1 1 2 = 198 ∧
    load_bgra5551 freshBuf (save_bgra5551 pixB20 freshBuf 1 1) 1 1 2 = 0 := by
  decide

/-- C4 fails on the code for the load half: in the sub-4x4 branch of every
block-format loader the loop stores byte offset +2 twice (0 then 0xFF) and
never stores offset +3, so each pixel ends as R=0, G=0, B=255 with alpha
left at its previous contents — not R=G=B=0, A=255.  The save half holds:
below 4x4 the savers leave the encoded buffer untouched.  Evaluated at
width = height = 1 with a destination pixel buffer of 204-bytes. -/
theorem c4_dxt_small_eval :
    (load_dxt1 trivialSquish pixCC data5 1 1 2 = 255 ∧
     load_dxt1 trivialSquish pixCC data5 1 1 3 = 204 ∧
     load_dxt1 trivialSquish pixCC data5 1 1 0 = 0 ∧
     load_dxt1 trivialSquish pixCC data5 1 1 1 = 0) ∧
    (load_dxt1_alpha trivialSquish pixCC data5 1 1 2 = 255 ∧
     load_dxt1_alpha trivialSquish pixCC data5 1 1 3 = 204) ∧
    (load_dxt3 trivialSquish pixCC data5 1 1 2 = 255 ∧
     load_dxt3 trivialSquish pixCC data5 1 1 3 = 204) ∧
    (load_dxt5 trivialSquish pixCC data5 1 1 2 = 255 ∧
     load_dxt5 trivialSquish pixCC data5 1 1 3 = 204) ∧
    (load_ati2n trivialSquish pixCC data5 1 1 2 = 255 ∧
     load_ati2n trivialSquish pixCC data5 1 1 3 = 204) ∧
    (save_dxt1 trivialSquish pixCC dataId 1 1 = dataId ∧
     save_dxt1_alpha trivialSquish pixCC dataId 1 1 = dataId ∧
     save_dxt3 trivialSquish pixCC dataId 1 1 = dataId ∧
     save_dxt5 trivialSquish pixCC dataId 1 1 = dataId ∧
     save_ati2n trivialSquish pixCC dataId 1 1 = dataId) := by
  refine ⟨by decide, by decide, by decide, by decide, by decide,
    rfl, rfl, rfl, rfl, rfl⟩

/-- C5 fails on the code: `load_a8` only zeroes the first `width * height`
bytes of the `4 * width * height`-byte canonical buffer (its `memset` uses
the wrong length, contradicting the adjacent comment "Set RGB to zero in
bulk"), so most G and B bytes keep the destination's previous contents.
At width = height = 1 with a 204-filled destination and source byte 5 the
result is (0, 204, 204, 5) instead of the claimed (0, 0, 0, 5). -/
theorem c5_a8_memset_eval :
    load_a8 pixCC data5 1 1 0 = 0 ∧
    load_a8 pixCC data5 1 1 1 = 204 ∧
    load_a8 pixCC data5 1 1 2 = 204 ∧
    load_a8 pixCC data5 1 1 3 = 5 := by
  decide

/-!
Per-pixel characterisations of the bluescreen codecs, feeding claim C6.
-/

lemma bs_load_rgb (W H : Nat) (px data : Buf) (off : Nat) (hoff : off < W * H) :
    (data (3 * off) = 0 ∧ data (3 * off + 1) = 0 ∧ data (3 * off + 2) = 255 →
      load_rgb888_bluescreen px data W H (4 * off) = 0 ∧
      load_rgb888_bluescreen px data W H (4 * off + 1) = 0 ∧
      load_rgb888_bluescreen px data W H (4 * off + 2) = 0 ∧
      load_rgb888_bluescreen px data W H (4 * off + 3) = 0) ∧
    (¬(data (3 * off) = 0 ∧ data (3 * off + 1) = 0 ∧ data (3 * off + 2) = 255) →
      load_rgb888_bluescreen px data W H (4 * off) = data (3 * off) ∧
      load_rgb888_bluescreen px data W H (4 * off + 1) = data (3 * off + 1) ∧
      load_rgb888_bluescreen px data W H (4 * off + 2) = data (3 * off + 2) ∧
      load_rgb888_bluescreen px data W H (4 * off + 3) = 255) := by
  have ha : 4 * W * H = 4 * (W * H) := by ring
  have h0 : 4 * off < 4 * W * H := by omega
  have h1 : 4 * off + 1 < 4 * W * H := by omega
  have h2 : 4 * off + 2 < 4 * W * H := by omega
  have h3 : 4 * off + 3 < 4 * W * H := by omega
  constructor <;> intro hb <;>
    refine ⟨?_, ?_, ?_, ?_⟩ <;>
      simp only [load_rgb888_bluescreen, Nat.add_zero, mod4_0, mod4_1, mod4_2,
        mod4_3, div4_0, div4_1, div4_2, div4_3, h0, h1, h2, h3, if_true,
        reduceIte] <;>
      simp [hb]

lemma bs_save_rgb (W H : Nat) (p d : Buf) (off : Nat) (hoff : off < W * H) :
    (p (4 * off + 3) < 128 →
      save_rgb888_bluescreen p d W H (3 * off) = 0 ∧
      save_rgb888_bluescreen p d W H (3 * off + 1) = 0 ∧
      save_rgb888_bluescreen p d W H (3 * off + 2) = 255) ∧
    (128 ≤ p (4 * off + 3) →
      save_rgb888_bluescreen p d W H (3 * off) = p (4 * off) ∧
      save_rgb888_bluescreen p d W H (3 * off + 1) = p (4 * off + 1) ∧
      save_rgb888_bluescreen p d W H (3 * off + 2) = p (4 * off + 2)) := by
  have hb : 3 * W * H = 3 * (W * H) := by ring
  have e0 : 3 * off < 3 * W * H := by omega
  have e1 : 3 * off + 1 < 3 * W * H := by omega
  have e2 : 3 * off + 2 < 3 * W * H := by omega
  constructor
  · intro hA
    refine ⟨?_, ?_, ?_⟩ <;>
      simp only [save_rgb888_bluescreen, Nat.add_zero, mod3_0, mod3_1, mod3_2,
        div3_0, div3_1, div3_2, e0, e1, e2, if_true, reduceIte] <;>
      simp [hA]
  · intro hA
    have hA' : ¬ p (4 * off + 3) < 128 := by omega
    refine ⟨?_, ?_, ?_⟩ <;>
      simp only [save_rgb888_bluescreen, Nat.add_zero, mod3_0, mod3_1, mod3_2,
        div3_0, div3_1, div3_2, e0, e1, e2, if_true, reduceIte] <;>
      simp [hA']

lemma bs_load_bgr (W H : Nat) (px data : Buf) (off : Nat) (hoff : off < W * H) :
    (data (3 * off) = 255 ∧ data (3 * off + 1) = 0 ∧ data (3 * off + 2) = 0 →
      load_bgr888_bluescreen px data W H (4 * off) = 0 ∧
      load_bgr888_bluescreen px data W H (4 * off + 1) = 0 ∧
      load_bgr888_bluescreen px data W H (4 * off + 2) = 0 ∧
      load_bgr888_bluescreen px data W H (4 * off + 3) = 0) ∧
    (¬(data (3 * off) = 255 ∧ data (3 * off + 1) = 0 ∧ data (3 * off + 2) = 0) →
      load_bgr888_bluescreen px data W H (4 * off) = data (3 * off + 2) ∧
      load_bgr888_bluescreen px data W H (4 * off + 1) = data (3 * off + 1) ∧
      load_bgr888_bluescreen px data W H (4 * off + 2) = data (3 * off) ∧
      load_bgr888_bluescreen px data W H (4 * off + 3) = 255) := by
  have ha : 4 * W * H = 4 * (W * H) := by ring
  have h0 : 4 * off < 4 * W * H := by omega
  have h1 : 4 * off + 1 < 4 * W * H := by omega
  have h2 : 4 * off + 2 < 4 * W * H := by omega
  have h3 : 4 * off + 3 < 4 * W * H := by omega
  constructor <;> intro hb
  · have hb' : data (3 * off + 2) = 0 ∧ data (3 * off + 1) = 0 ∧
        data (3 * off) = 255 := ⟨hb.2.2, hb.2.1, hb.1⟩
    refine ⟨?_, ?_, ?_, ?_⟩ <;>
      simp only [load_bgr888_bluescreen, Nat.add_zero, mod4_0, mod4_1, mod4_2,
        mod4_3, div4_0, div4_1, div4_2, div4_3, h0, h1, h2, h3, if_true,
        reduceIte] <;>
      simp [hb'.1, hb'.2.1, hb'.2.2]
  · have hb' : ¬(data (3 * off + 2) = 0 ∧ data (3 * off + 1) = 0 ∧
        data (3 * off) = 255) := fun h => hb ⟨h.2.2, h.2.1, h.1⟩
    refine ⟨?_, ?_, ?_, ?_⟩ <;>
      simp only [load_bgr888_bluescreen, Nat.add_zero, mod4_0, mod4_1, mod4_2,
        mod4_3, div4_0, div4_1, div4_2, div4_3, h0, h1, h2, h3, if_true,
        reduceIte] <;>
      simp [hb']

lemma bs_save_bgr (W H : Nat) (p d : Buf) (off : Nat) (hoff : off < W * H) :
    (p (4 * off + 3) < 128 →
      save_bgr888_bluescreen p d W H (3 * off) = 255 ∧
      save_bgr888_bluescreen p d W H (3 * off + 1) = 0 ∧
      save_bgr888_bluescreen p d W H (3 * off + 2) = 0) ∧
    (128 ≤ p (4 * off + 3) →
      save_bgr888_bluescreen p d W H (3 * off) = p (4 * off + 2) ∧
      save_bgr888_bluescreen p d W H (3 * off + 1) = p (4 * off + 1) ∧
      save_bgr888_bluescreen p d W H (3 * off + 2) = p (4 * off)) := by
  have hb : 3 * W * H = 3 * (W * H) := by ring
  have e0 : 3 * off < 3 * W * H := by omega
  have e1 : 3 * off + 1 < 3 * W * H := by omega
  have e2 : 3 * off + 2 < 3 * W * H := by omega
  constructor
  · intro hA
    refine ⟨?_, ?_, ?_⟩ <;>
      simp only [save_bgr888_bluescreen, Nat.add_zero, mod3_0, mod3_1, mod3_2,
        div3_0, div3_1, div3_2, e0, e1, e2, if_true, reduceIte] <;>
      simp [hA]
  · intro hA
    have hA' : ¬ p (4 * off + 3) < 128 := by omega
    refine ⟨?_, ?_, ?_⟩ <;>
      simp only [save_bgr888_bluescreen, Nat.add_zero, mod3_0, mod3_1, mod3_2,
        div3_0, div3_1, div3_2, e0, e1, e2, if_true, reduceIte] <;>
      simp [hA']

/-- C6: for RGB888_BLUESCREEN and BGR888_BLUESCREEN, on load a source pixel
exactly equal to pure blue in the format's byte order yields canonical
bytes (0,0,0,0) and every other source pixel yields its RGB with A = 255;
on save a canonical pixel with A < 128 is written as pure blue in the
format's byte order and one with A ≥ 128 has its R, G, B written in the
format's byte order with alpha discarded. -/
theorem c6_bluescreen (W H : Nat) (px p d data : Buf) (off : Nat)
    (hoff : off < W * H) :
    ((data (3 * off) = 0 ∧ data (3 * off + 1) = 0 ∧ data (3 * off + 2) = 255 →
        load_rgb888_bluescreen px data W H (4 * off) = 0 ∧
        load_rgb888_bluescreen px data W H (4 * off + 1) = 0 ∧
        load_rgb888_bluescreen px data W H (4 * off + 2) = 0 ∧
        load_rgb888_bluescreen px data W H (4 * off + 3) = 0) ∧
      (¬(data (3 * off) = 0 ∧ data (3 * off + 1) = 0 ∧ data (3 * off + 2) = 255) →
        load_rgb888_bluescreen px data W H (4 * off) = data (3 * off) ∧
        load_rgb888_bluescreen px data W H (4 * off + 1) = data (3 * off + 1) ∧
        load_rgb888_bluescreen px data W H (4 * off + 2) = data (3 * off + 2) ∧
        load_rgb888_bluescreen px data W H (4 * off + 3) = 255)) ∧
    ((p (4 * off + 3) < 128 →
        save_rgb888_bluescreen p d W H (3 * off) = 0 ∧
        save_rgb888_bluescreen p d W H (3 * off + 1) = 0 ∧
        save_rgb888_bluescreen p d W H (3 * off + 2) = 255) ∧
      (128 ≤ p (4 * off + 3) →
        save_rgb888_bluescreen p d W H (3 * off) = p (4 * off) ∧
        save_rgb888_bluescreen p d W H (3 * off + 1) = p (4 * off + 1) ∧
        save_rgb888_bluescreen p d W H (3 * off + 2) = p (4 * off + 2))) ∧
    ((data (3 * off) = 255 ∧ data (3 * off + 1) = 0 ∧ data (3 * off + 2) = 0 →
        load_bgr888_bluescreen px data W H (4 * off) = 0 ∧
        load_bgr888_bluescreen px data W H (4 * off + 1) = 0 ∧
        load_bgr888_bluescreen px data W H (4 * off + 2) = 0 ∧
        load_bgr888_bluescreen px data W H (4 * off + 3) = 0) ∧
      (¬(data (3 * off) = 255 ∧ data (3 * off + 1) = 0 ∧ data (3 * off + 2) = 0) →
        load_bgr888_bluescreen px data W H (4 * off) = data (3 * off + 2) ∧
        load_bgr888_bluescreen px data W H (4 * off + 1) = data (3 * off + 1) ∧
        load_bgr888_bluescreen px data W H (4 * off + 2) = data (3 * off) ∧
        load_bgr888_bluescreen px data W H (4 * off + 3) = 255)) ∧
    ((p (4 * off + 3) < 128 →
        save_bgr888_bluescreen p d W H (3 * off) = 255 ∧
        save_bgr888_bluescreen p d W H (3 * off + 1) = 0 ∧
        save_bgr888_bluescreen p d W H (3 * off + 2) = 0) ∧
      (128 ≤ p (4 * off + 3) →
        save_bgr888_bluescreen p d W H (3 * off) = p (4 * off + 2) ∧
        save_bgr888_bluescreen p d W H (3 * off + 1) = p (4 * off + 1) ∧
        save_bgr888_bluescreen p d W H (3 * off + 2) = p (4 * off))) :=
  ⟨bs_load_rgb W H px data off hoff, bs_save_rgb W H p d off hoff,
   bs_load_bgr W H px data off hoff, bs_save_bgr W H p d off hoff⟩

/-- Witness for C6 at concrete 1x1 buffers: a pure-blue source pixel loads
as transparent black and a canonical pixel with A = 40 saves as pure blue,
in both byte orders. -/
theorem c6_bluescreen_witness :
    load_rgb888_bluescreen pixCC dataBlue 1 1 (4 * 0 + 3) = 0 ∧
    save_rgb888_bluescreen pix0 freshBuf 1 1 (3 * 0 + 2) = 255 ∧
    load_bgr888_bluescreen pixCC dataBlueB 1 1 (4 * 0 + 3) = 0 ∧
    save_bgr888_bluescreen pix0 freshBuf 1 1 (3 * 0) = 255 :=
  ⟨((c6_bluescreen 1 1 pixCC pix0 freshBuf dataBlue 0 (by decide)).1.1
      (by decide)).2.2.2,
   ((c6_bluescreen 1 1 pixCC pix0 freshBuf dataBlue 0 (by decide)).2.1.1
      (by decide)).2.2,
   ((c6_bluescreen 1 1 pixCC pix0 freshBuf dataBlueB 0 (by decide)).2.2.1.1
      (by decide)).2.2.2,
   ((c6_bluescreen 1 1 pixCC pix0 freshBuf dataBlueB 0 (by decide)).2.2.2.1
      (by decide)).1⟩

/-- C7: for exact integer halving on both axes, `scale_down` with the
Bilinear filter (value 4) writes, for each output pixel `(x, y)` and each
channel, the truncating integer average of that channel over the four
source pixels `(2x, 2y)`, `(2x+1, 2y)`, `(2x, 2y+1)`, `(2x+1, 2y+1)`. -/
theorem c7_scale_down_bilinear (W H srcW srcH : Nat) (src dest : Buf)
    (hsw : srcW = 2 * W) (hsh : srcH = 2 * H) (hW : 1 ≤ W) (hH : 1 ≤ H) :
    (scale_down 4 srcW srcH W H src dest).isOk = true ∧
    ∀ r, scale_down 4 srcW srcH W H src dest = .ok r →
      ∀ x < W, ∀ y < H, ∀ c < 4,
        r (4 * (W * y + x) + c) =
          (src (4 * (srcW * (2 * y) + 2 * x) + c) +
           src (4 * (srcW * (2 * y) + (2 * x + 1)) + c) +
           src (4 * (srcW * (2 * y + 1) + 2 * x) + c) +
           src (4 * (srcW * (2 * y + 1) + (2 * x + 1)) + c)) / 4 := by
  subst hsw hsh
  have hne1 : ¬ W = 2 * W := by omega
  have hne2 : ¬ H = 2 * H := by omega
  constructor
  · simp [scale_down, hne1, hne2, Except.isOk, Except.toBool]
  · intro r hr x hx y hy c hc
    simp only [scale_down, hne1, hne2, if_false, if_true, ite_not, reduceIte,
      Except.ok.injEq] at hr
    subst hr
    have ha : 4 * W * H = 4 * (W * H) := by ring
    have hmul : W * (y + 1) ≤ W * H := Nat.mul_le_mul_left W hy
    have he : W * (y + 1) = W * y + W := by ring
    have hWyx : W * y + x < W * H := by omega
    have hlt : 4 * (W * y + x) + c < 4 * W * H := by omega
    have hdiv : (4 * (W * y + x) + c) / 4 = W * y + x := by omega
    have hmod : (4 * (W * y + x) + c) % 4 = c := by omega
    have hdy : (W * y + x) / W = y := by
      rw [Nat.mul_add_div (by omega : 0 < W), Nat.div_eq_of_lt hx]
      omega
    have hdx : (W * y + x) % W = x := by
      rw [Nat.mul_add_mod]
      exact Nat.mod_eq_of_lt hx
    simp only [hlt, hdiv, hmod, hdy, hdx, if_true, reduceIte]
    have i1 : 4 * (2 * 2 * W * y + 2 * x) + c =
        4 * (2 * W * (2 * y) + 2 * x) + c := by ring
    rw [i1]
    have i4 : 4 * (2 * W * (2 * y) + 2 * x) + c + 4 * 2 * W + 4 =
        4 * (2 * W * (2 * y + 1) + (2 * x + 1)) + c := by ring
    rw [i4]
    have i3 : 4 * (2 * W * (2 * y) + 2 * x) + c + 4 * 2 * W =
        4 * (2 * W * (2 * y + 1) + 2 * x) + c := by ring
    rw [i3]
    have i2 : 4 * (2 * W * (2 * y) + 2 * x) + c + 4 =
        4 * (2 * W * (2 * y) + (2 * x + 1)) + c := by ring
    rw [i2]

/-- Witness for C7: scaling the concrete 2x2 image down to 1x1. -/
theorem c7_scale_down_bilinear_witness :
    (scale_down 4 (2 * 1) (2 * 1) 1 1 src22 freshBuf).isOk = true ∧
    ∀ r, scale_down 4 (2 * 1) (2 * 1) 1 1 src22 freshBuf = .ok r →
      ∀ x < 1, ∀ y < 1, ∀ c < 4,
        r (4 * (1 * y + x) + c) =
          (src22 (4 * (2 * 1 * (2 * y) + 2 * x) + c) +
           src22 (4 * (2 * 1 * (2 * y) + (2 * x + 1)) + c) +
           src22 (4 * (2 * 1 * (2 * y + 1) + 2 * x) + c) +
           src22 (4 * (2 * 1 * (2 * y + 1) + (2 * x + 1)) + c)) / 4 :=
  c7_scale_down_bilinear 1 1 (2 * 1) (2 * 1) src22 freshBuf rfl rfl
    (by decide) (by decide)

lemma rgbBody_length (p : Buf) (n : Nat) : (rgbBody p n).length = 3 * n := by
  induction n with
  | zero => simp [rgbBody]
  | succ n ih => simp [rgbBody, ih]; omega

lemma map_range_getD (l : List Nat) (f : Nat → Nat)
    (hf : ∀ i, i < l.length → f i = l.getD i 0) :
    (List.range l.length).map f = l := by
  apply List.ext_getElem
  · simp
  · intro i h1 h2
    simp only [List.getElem_map, List.getElem_range]
    rw [hf i h2, List.getD_eq_getElem l 0 h2]

lemma ppm_aux (p : Buf) (hdr : List Nat) (n : Nat) :
    (List.range (hdr.length + 3 * n)).map (fun i =>
      if i < hdr.length then hdr.getD i 0
      else
        let j := i - hdr.length
        let off := j / 3
        if j % 3 = 0 then p (4 * off + 0)
        else if j % 3 = 1 then p (4 * off + 1)
        else p (4 * off + 2)) = hdr ++ rgbBody p n := by
  induction n with
  | zero =>
    simp only [Nat.mul_zero, Nat.add_zero, rgbBody, List.append_nil]
    apply map_range_getD
    intro i hi
    simp [hi]
  | succ n ih =>
    have e : hdr.length + 3 * (n + 1) = hdr.length + 3 * n + 1 + 1 + 1 := by
      omega
    have c0 : ¬ hdr.length + 3 * n < hdr.length := by omega
    have c1 : ¬ hdr.length + 3 * n + 1 < hdr.length := by omega
    have c2 : ¬ hdr.length + 3 * n + 1 + 1 < hdr.length := by omega
    have d0 : hdr.length + 3 * n - hdr.length = 3 * n := by omega
    have d1 : hdr.length + 3 * n + 1 - hdr.length = 3 * n + 1 := by omega
    have d2 : hdr.length + 3 * n + 1 + 1 - hdr.length = 3 * n + 2 := by omega
    rw [e, List.range_succ, List.range_succ, List.range_succ]
    simp only [List.map_append, List.map_cons, List.map_nil, ih]
    simp only [c0, c1, c2, if_false, reduceIte, d0, d1, d2,
      mod3_0, mod3_1, mod3_2, div3_0, div3_1, div3_2]
    simp [rgbBody, Nat.add_zero]

/-- C8: for every width `W ≥ 1`, height `H ≥ 1` and canonical buffer,
`ppm_convert` with `bg` absent returns exactly the ASCII header
`P6 <W> <H> 255\n` (`ppmHeader`, with `W` and `H` in decimal) followed by
exactly `3*W*H` bytes that are the R, G, B bytes of each pixel in
row-major order with alpha dropped, and nothing after the pixel data. -/
theorem c8_ppm (W H : Nat) (pixels : Buf) (_hW : 1 ≤ W) (_hH : 1 ≤ H) :
    ppm_convert pixels W H = ppmHeader W H ++ rgbBody pixels (W * H) ∧
    (rgbBody pixels (W * H)).length = 3 * (W * H) := by
  refine ⟨?_, rgbBody_length pixels (W * H)⟩
  have e : 3 * W * H = 3 * (W * H) := by ring
  simp only [ppm_convert, e]
  exact ppm_aux pixels (ppmHeader W H) (W * H)

/-- Witness for C8 at the concrete 2x2 image. -/
theorem c8_ppm_witness :
    ppm_convert src22 2 2 = ppmHeader 2 2 ++ rgbBody src22 (2 * 2) ∧
    (rgbBody src22 (2 * 2)).length = 3 * (2 * 2) :=
  c8_ppm 2 2 src22 (by decide) (by decide)

/-- C9: for every format tag in `[0, 30)` the public `load` and `save`
entry points raise `NotImplementedError` naming the format if and only if
the registry entry lacks a function for the requested direction — exactly
the tags P8 (7), RGBA16161616F (24), RGBA16161616 (25), NONE (27) and
ATI1N (28), for both directions — and every other tag dispatches to that
format's codec without raising. -/
theorem c9_dispatch (squish : SquishLib) (nm : String) (pixels data : Buf)
    (W H : Nat) (tag : Nat) (htag : tag < 30) :
    (((FORMATS squish tag).load = none ∧ (FORMATS squish tag).save = none) ↔
      tag ∈ unsupportedTags) ∧
    (tag ∈ unsupportedTags →
      load squish (tag : Int) nm pixels data W H =
        .error ("Loading " ++ nm ++ " not implemented!") ∧
      save squish (tag : Int) nm pixels data W H =
        .error ("Saving " ++ nm ++ " not implemented!")) ∧
    (tag ∉ unsupportedTags →
      (∃ f, (FORMATS squish tag).load = some f ∧
        load squish (tag : Int) nm pixels data W H = .ok (f pixels data W H)) ∧
      (∃ g, (FORMATS squish tag).save = some g ∧
        save squish (tag : Int) nm pixels data W H = .ok (g pixels data W H))) := by
  interval_cases tag <;>
    simp [FORMATS, load, save, unsupportedTags]

/-- Witness for C9 at the unsupported tag 7 (P8) and the supported tag 0
(RGBA8888). -/
theorem c9_dispatch_witness :
    ((((FORMATS trivialSquish 7).load = none ∧
        (FORMATS trivialSquish 7).save = none) ↔ 7 ∈ unsupportedTags) ∧
      (7 ∈ unsupportedTags →
        load trivialSquish (7 : Nat) "P8" pixCC data5 1 1 =
          .error ("Loading " ++ "P8" ++ " not implemented!") ∧
        save trivialSquish (7 : Nat) "P8" pixCC data5 1 1 =
          .error ("Saving " ++ "P8" ++ " not implemented!")) ∧
      (7 ∉ unsupportedTags →
        (∃ f, (FORMATS trivialSquish 7).load = some f ∧
          load trivialSquish (7 : Nat) "P8" pixCC data5 1 1 =
            .ok (f pixCC data5 1 1)) ∧
        (∃ g, (FORMATS trivialSquish 7).save = some g ∧
          save trivialSquish (7 : Nat) "P8" pixCC data5 1 1 =
            .ok (g pixCC data5 1 1)))) ∧
    ((((FORMATS trivialSquish 0).load = none ∧
        (FORMATS trivialSquish 0).save = none) ↔ 0 ∈ unsupportedTags) ∧
      (0 ∈ unsupportedTags →
        load trivialSquish (0 : Nat) "RGBA8888" pixCC data5 1 1 =
          .error ("Loading " ++ "RGBA8888" ++ " not implemented!") ∧
        save trivialSquish (0 : Nat) "RGBA8888" pixCC data5 1 1 =
          .error ("Saving " ++ "RGBA8888" ++ " not implemented!")) ∧
      (0 ∉ unsupportedTags →
        (∃ f, (FORMATS trivialSquish 0).load = some f ∧
          load trivialSquish (0 : Nat) "RGBA8888" pixCC data5 1 1 =
            .ok (f pixCC data5 1 1)) ∧
        (∃ g, (FORMATS trivialSquish 0).save = some g ∧
          save trivialSquish (0 : Nat) "RGBA8888" pixCC data5 1 1 =
            .ok (g pixCC data5 1 1)))) :=
  ⟨c9_dispatch trivialSquish "P8" pixCC data5 1 1 7 (by decide),
   c9_dispatch trivialSquish "RGBA8888" pixCC data5 1 1 0 (by decide)⟩

/-- C10: `init` validates only the `(index, name)` pairs it is given: it
succeeds exactly when every supplied entry has an index inside `[0, 30)`
and the registry's name at that index; in particular it succeeds on an
empty or partial enumeration, with no check that all 30 entries were
covered. -/
theorem c10_init_entrywise (squish : SquishLib) :
    init squish [] = true ∧
    ∀ entries : List (Int × String),
      (init squish entries = true ↔
        ∀ e ∈ entries, 0 ≤ e.1 ∧ e.1 < 30 ∧
          (FORMATS squish e.1.toNat).name = e.2) := by
  constructor
  · rfl
  · intro entries
    simp only [init, List.all_eq_true, Bool.and_eq_true, decide_eq_true_eq,
      beq_iff_eq]
    constructor
    · intro h e he
      obtain ⟨⟨h1, h2⟩, h3⟩ := h e he
      exact ⟨h1, h2, h3⟩
    · intro h e he
      obtain ⟨h1, h2, h3⟩ := h e he
      exact ⟨⟨h1, h2⟩, h3⟩

/-- Witness for C10: a partial, valid enumeration passes `init`. -/
theorem c10_init_entrywise_witness :
    init trivialSquish [((0 : Int), "RGBA8888"), ((29 : Int), "ATI2N")] = true :=
  ((c10_init_entrywise trivialSquish).2
    [((0 : Int), "RGBA8888"), ((29 : Int), "ATI2N")]).mpr (by decide)

end Vtf
